import Mathlib

/-!
Verification of the data-access layer of the Job-buddy repository
(`backend/models/*.py`) against its natural-language specification.

Modelling conventions used throughout this file:
* Calendar dates are modelled as `Nat` day numbers on a time line whose
  epoch (day 0) is a Monday, so that the Python weekday of day `d` is `d % 7`
  and subtracting two dates gives the integer day difference.
* Python `int` values are modelled as `Int`; Python strings as `String`.
* Python `None` is modelled as `Option.none`; Python truthiness of an
  optional string (`if s:`) is `pyTruthy`.
* A method that can `raise ValueError(msg)` is modelled as a function into
  `Except String _`, returning `Except.error msg` on the raising path.
* The SQLite table behind a model is modelled as a `List` of row
  structures; an insert appends a row, so a function that returns
  `Except.error _` has inserted nothing.
* `db.execute_*` calls are modelled on their success path; the
  `except DatabaseError` fallbacks (which merely return `False`) are not
  part of any claim below.
-/

set_option autoImplicit false

/-- Python truthiness of an optional string: `None` and `""` are falsy. -/
def pyTruthy : Option String → Bool
  | none => false
  | some s => !s.isEmpty

/-- Characters removed by Python `str.strip()` (ASCII whitespace). -/
def isPySpace (c : Char) : Bool :=
  c == ' ' || c == '\t' || c == '\n' || c == '\r' || c == '\x0b' || c == '\x0c'

/-- Python `str.strip()` on the character list. -/
def stripChars (cs : List Char) : List Char :=
  ((cs.dropWhile isPySpace).reverse.dropWhile isPySpace).reverse

/-- Python `str.strip()`. -/
def pyStrip (s : String) : String :=
  String.mk (stripChars s.toList)

/-- ASCII lower-casing of one character, as SQLite `NOCASE` and
Python `str.lower()` do on ASCII letters. -/
def lowerChar (c : Char) : Char :=
  if 65 ≤ c.toNat ∧ c.toNat ≤ 90 then Char.ofNat (c.toNat + 32) else c

/-- ASCII lower-casing of a string. -/
def lowerStr (s : String) : String :=
  String.mk (s.toList.map lowerChar)

/-!
Section: Streak (`backend/models/streak.py`)

State of one row of the `streaks` table. `last_activity_date` is stored
in the table as an ISO date string and parsed back with
`datetime.fromisoformat(...).date()`; we model it directly as the parsed
date (a day number), with `none` for `NULL`/empty.
-/

structure Streak where
  current_streak : Int
  longest_streak : Int
  last_activity_date : Option Nat
  total_points : Int
deriving DecidableEq, Repr

/-- Model of `Streak.update_activity` (streak.py lines 61-119), success path of the
transition it writes back to the table and to `self`. -/
def Streak.update_activity (today : Nat) (points : Int) (s : Streak) : Streak :=
  match s.last_activity_date with
  | none =>
      { current_streak := 1
        longest_streak := max 1 s.longest_streak
        last_activity_date := some today
        total_points := s.total_points + points }
  | some last =>
      let days_diff : Int := (today : Int) - (last : Int)
      if days_diff = 0 then
        { current_streak := s.current_streak
          longest_streak := s.longest_streak
          last_activity_date := some today
          total_points := s.total_points + points }
      else if days_diff = 1 then
        { current_streak := s.current_streak + 1
          longest_streak := max (s.current_streak + 1) s.longest_streak
          last_activity_date := some today
          total_points := s.total_points + points }
      else
        { current_streak := 1
          longest_streak := s.longest_streak
          last_activity_date := some today
          total_points := s.total_points + points }

/-- Model of `Streak.add_points` (streak.py lines 121-138), success path. -/
def Streak.add_points (points : Int) (s : Streak) : Streak :=
  { s with total_points := s.total_points + points }

/-- Model of `Streak.reset_streak` (streak.py lines 140-152), success path. -/
def Streak.reset_streak (s : Streak) : Streak :=
  { s with current_streak := 0 }

/-- Claim C1: `Streak.update_activity` implements the 4-branch transition:
same day leaves `current_streak` and `longest_streak` unchanged; a gap of
exactly one day increments `current_streak` and sets `longest_streak` to
`max (current_streak + 1) longest_streak`; a gap of two or more days, or no
prior activity, resets `current_streak` to 1; and in every branch
`last_activity_date` becomes today and `total_points` grows by `points`. -/
theorem streak_update_activity_branches (s : Streak) (today : Nat) (points : Int) :
    (s.last_activity_date = some today →
      (s.update_activity today points).current_streak = s.current_streak ∧
      (s.update_activity today points).longest_streak = s.longest_streak) ∧
    (∀ d : Nat, s.last_activity_date = some d → d + 1 = today →
      (s.update_activity today points).current_streak = s.current_streak + 1 ∧
      (s.update_activity today points).longest_streak
        = max (s.current_streak + 1) s.longest_streak) ∧
    ((s.last_activity_date = none ∨
        ∃ d : Nat, s.last_activity_date = some d ∧ d + 2 ≤ today) →
      (s.update_activity today points).current_streak = 1) ∧
    (s.update_activity today points).last_activity_date = some today ∧
    (s.update_activity today points).total_points = s.total_points + points := by
  refine ⟨?_, ?_, ?_, ?_, ?_⟩
  · intro h
    simp only [Streak.update_activity, h]
    norm_num
  · intro d hd hdt
    simp only [Streak.update_activity, hd]
    have h0 : (today : Int) - (d : Int) = 1 := by omega
    have h1 : ¬((today : Int) - (d : Int) = 0) := by omega
    simp [h0, h1]
  · rintro (h | ⟨d, hd, hdt⟩)
    · simp [Streak.update_activity, h]
    · have h0 : ¬((today : Int) - (d : Int) = 0) := by omega
      have h1 : ¬((today : Int) - (d : Int) = 1) := by omega
      simp [Streak.update_activity, hd, h0, h1]
  · cases h : s.last_activity_date with
    | none => simp [Streak.update_activity, h]
    | some d =>
        simp only [Streak.update_activity, h]
        split <;> first | rfl | split <;> rfl
  · cases h : s.last_activity_date with
    | none => simp [Streak.update_activity, h]
    | some d =>
        simp only [Streak.update_activity, h]
        split <;> first | rfl | split <;> rfl

/-- Witness for C1: the one-day-gap branch on a concrete state, checked by
applying `streak_update_activity_branches` to explicit input. -/
theorem streak_update_activity_branches_witness :
    (Streak.update_activity 5 10 ⟨3, 3, some 4, 20⟩).current_streak = 3 + 1 ∧
    (Streak.update_activity 5 10 ⟨3, 3, some 4, 20⟩).longest_streak = max (3 + 1) 3 :=
  (streak_update_activity_branches ⟨3, 3, some 4, 20⟩ 5 10).2.1 4 rfl rfl

/-- Claim C4: no operation on a streak decreases `longest_streak`:
`update_activity` can only raise it, and `add_points` and `reset_streak`
leave it unchanged. -/
theorem streak_longest_streak_monotone (s : Streak) (today : Nat) (p q : Int) :
    s.longest_streak ≤ (s.update_activity today p).longest_streak ∧
    (s.add_points q).longest_streak = s.longest_streak ∧
    (s.reset_streak).longest_streak = s.longest_streak := by
  refine ⟨?_, rfl, rfl⟩
  cases h : s.last_activity_date with
  | none => simp [Streak.update_activity, h]
  | some d =>
      simp only [Streak.update_activity, h]
      split
      · exact le_refl _
      · split
        · exact le_max_right _ _
        · exact le_refl _

/-!
Section: Application (`backend/models/application.py`)

`applied_date` is kept as the ISO string the code stores; `today` is
passed in as the ISO string `date.today().isoformat()` would produce.
-/

structure Application where
  job_title : String
  job_url : Option String
  status : String
  applied_date : Option String
  notes : Option String
deriving DecidableEq, Repr

/-- Model of `Application.VALID_STATUSES` (application.py line 14). -/
def Application.VALID_STATUSES : List String :=
  ["Planned", "Applied", "Interview", "Offer", "Rejected"]

/-- Model of `Application.validate_job_title` (application.py lines 32-35). -/
def Application.validate_job_title (job_title : String) : Bool :=
  !job_title.isEmpty && decide (2 ≤ (pyStrip job_title).length)

/-- Model of `Application.validate_status` (application.py lines 37-40). -/
def Application.validate_status (status : String) : Bool :=
  Application.VALID_STATUSES.contains status

/-- Keyword arguments of `Application.update`; `none` models an argument
left at its `None` default. -/
structure UpdateArgs where
  job_title : Option String
  job_url : Option String
  status : Option String
  applied_date : Option String
  notes : Option String
deriving DecidableEq, Repr

/-- Model of `Application.update` (application.py lines 180-244), success path of
the database write. Returns the updated record together with the boolean
the method returns (`false` when no field was updated). -/
def Application.update (today : String) (a0 : Application) (args : UpdateArgs) :
    Except String (Application × Bool) := do
  let s1 ←
    if pyTruthy args.job_title then
      let t := args.job_title.getD ""
      if Application.validate_job_title t then
        Except.ok ({ a0 with job_title := pyStrip t }, true)
      else
        Except.error "Job title must be at least 2 characters long"
    else
      Except.ok (a0, false)
  let s2 :=
    if args.job_url.isSome then
      ({ s1.1 with job_url := args.job_url }, true)
    else s1
  let s3 ←
    if pyTruthy args.status then
      let st := args.status.getD ""
      if Application.validate_status st then
        let a3 := { s2.1 with status := st }
        if st == "Applied" && !pyTruthy a3.applied_date then
          Except.ok ({ a3 with applied_date := some today }, true)
        else
          Except.ok (a3, true)
      else
        Except.error "Invalid status. Must be one of: Planned, Applied, Interview, Offer, Rejected"
    else
      Except.ok s2
  let s4 :=
    if args.applied_date.isSome then
      ({ s3.1 with applied_date := args.applied_date }, true)
    else s3
  let s5 :=
    if args.notes.isSome then
      ({ s4.1 with notes := args.notes }, true)
    else s4
  Except.ok s5

/-- Claim C2: updating only the status to `Applied` auto-fills an unset
`applied_date` with today; once `applied_date` is set, a status-only
update (to any valid status, including `Applied` again) leaves it
unchanged. -/
theorem application_update_applied_date (a : Application) (today st : String) :
    (pyTruthy a.applied_date = false →
      Application.update today a ⟨none, none, some "Applied", none, none⟩ =
        Except.ok ({ a with status := "Applied", applied_date := some today }, true)) ∧
    (pyTruthy a.applied_date = true → Application.validate_status st = true →
      Application.update today a ⟨none, none, some st, none, none⟩ =
        Except.ok ({ a with status := st }, true)) := by
  have hApplied : ("Applied" : String).isEmpty = false := rfl
  have hEmp : ("" : String).isEmpty = true := rfl
  constructor
  · intro h
    cases happ : a.applied_date with
    | none =>
        simp [Application.update, bind, Except.bind, pyTruthy, happ, hApplied,
          Application.validate_status, Application.VALID_STATUSES]
    | some s =>
        rw [happ] at h
        have hs : s = "" := by
          simpa [pyTruthy, String.isEmpty_iff] using h
        subst hs
        simp [Application.update, bind, Except.bind, pyTruthy, happ, hApplied, hEmp,
          Application.validate_status, Application.VALID_STATUSES]
  · intro h hst
    have hne : st ≠ "" := by
      intro he
      rw [he] at hst
      simp [Application.validate_status, Application.VALID_STATUSES] at hst
    have hts : st.isEmpty = false := by
      cases hb : st.isEmpty with
      | false => rfl
      | true => exact absurd ((String.isEmpty_iff st).mp hb) hne
    cases happ : a.applied_date with
    | none =>
        rw [happ] at h
        simp [pyTruthy] at h
    | some s =>
        rw [happ] at h
        have hsf : s.isEmpty = false := by
          cases hb : s.isEmpty with
          | false => rfl
          | true => simp [pyTruthy, hb] at h
        simp [Application.update, bind, Except.bind, pyTruthy, hts, hst, happ, hsf]

/-- Witness for C2: a concrete application with no `applied_date`, moved to
`Applied`, gets `applied_date` set to the supplied date, by applying
`application_update_applied_date` to explicit input. -/
theorem application_update_applied_date_witness :
    Application.update "2026-10-12" ⟨"Engineer", none, "Planned", none, none⟩
        ⟨none, none, some "Applied", none, none⟩ =
      Except.ok (⟨"Engineer", none, "Applied", some "2026-10-12", none⟩, true) :=
  (application_update_applied_date ⟨"Engineer", none, "Planned", none, none⟩
      "2026-10-12" "Applied").1 rfl

/-!
Section: Outreach (`backend/models/outreach.py`)

Rows of the `outreach_activities` table; dates are day numbers.
-/

structure OutreachRow where
  user_id : Int
  application_id : Option Int
  company_id : Option Int
  contact_id : Int
  channel : String
  message_template : String
  sent_date : Nat
  follow_up_date : Option Nat
  status : String
deriving DecidableEq, Repr

/-- Model of `Outreach.VALID_CHANNELS` (outreach.py line 14). -/
def Outreach.VALID_CHANNELS : List String := ["email", "linkedin"]

/-- Model of `Outreach.VALID_STATUSES` (outreach.py line 17). -/
def Outreach.VALID_STATUSES : List String := ["Sent", "Responded", "No Response"]

/-- Model of `Outreach.validate_channel` (outreach.py lines 36-39). -/
def Outreach.validate_channel (channel : String) : Bool :=
  Outreach.VALID_CHANNELS.contains channel

/-- Model of `Outreach.validate_status` (outreach.py lines 41-44). -/
def Outreach.validate_status (status : String) : Bool :=
  Outreach.VALID_STATUSES.contains status

/-- Model of `Outreach.validate_exactly_one_link` (outreach.py lines 46-50). -/
def Outreach.validate_exactly_one_link (application_id company_id : Option Int) : Bool :=
  (application_id.isSome && company_id.isNone) ||
  (application_id.isNone && company_id.isSome)

/-- The part of `Outreach.create` after the exactly-one-link check
(outreach.py lines 85-114): channel, status and message validation, the
sent-date default, and the insert. -/
def Outreach.create_rest (today : Nat) (user_id contact_id : Int)
    (channel message_template : String) (application_id company_id : Option Int)
    (sent_date follow_up_date : Option Nat) (status : String)
    (db : List OutreachRow) : Except String (List OutreachRow) :=
  if !Outreach.validate_channel channel then
    Except.error "Invalid channel. Must be one of: email, linkedin"
  else if !Outreach.validate_status status then
    Except.error "Invalid status. Must be one of: Sent, Responded, No Response"
  else if message_template.isEmpty || (pyStrip message_template).length < 10 then
    Except.error "Message template must be at least 10 characters long"
  else
    let sent := (match sent_date with
      | none => today
      | some d => d)
    Except.ok (db ++ [{ user_id := user_id, application_id := application_id,
                        company_id := company_id, contact_id := contact_id,
                        channel := channel, message_template := message_template,
                        sent_date := sent, follow_up_date := follow_up_date,
                        status := status }])

/-- Model of `Outreach.create` (outreach.py lines 56-114): the exactly-one-link
check comes first, then the rest of the validation and the insert. -/
def Outreach.create (today : Nat) (user_id contact_id : Int)
    (channel message_template : String) (application_id company_id : Option Int)
    (sent_date follow_up_date : Option Nat) (status : String)
    (db : List OutreachRow) : Except String (List OutreachRow) :=
  if !Outreach.validate_exactly_one_link application_id company_id then
    Except.error "Must provide exactly ONE of application_id or company_id"
  else
    Outreach.create_rest today user_id contact_id channel message_template
      application_id company_id sent_date follow_up_date status db

/-- Claim C3: `Outreach.create` rejects (inserting nothing) every call in
which `application_id` and `company_id` are both set or both unset, and
proceeds past the link check exactly when precisely one of them is set. -/
theorem outreach_create_xor_link (today : Nat) (user_id contact_id : Int)
    (channel message_template : String) (application_id company_id : Option Int)
    (sent_date follow_up_date : Option Nat) (status : String)
    (db : List OutreachRow) :
    ((application_id.isSome = true ∧ company_id.isSome = true) ∨
      (application_id = none ∧ company_id = none) →
      Outreach.create today user_id contact_id channel message_template
          application_id company_id sent_date follow_up_date status db =
        Except.error "Must provide exactly ONE of application_id or company_id") ∧
    ((application_id.isSome = true ∧ company_id = none) ∨
      (application_id = none ∧ company_id.isSome = true) →
      Outreach.create today user_id contact_id channel message_template
          application_id company_id sent_date follow_up_date status db =
        Outreach.create_rest today user_id contact_id channel message_template
          application_id company_id sent_date follow_up_date status db) := by
  cases application_id <;> cases company_id <;>
    simp [Outreach.create, Outreach.validate_exactly_one_link]

/-- Witness for C3: both links unset on a concrete call is rejected, by
applying `outreach_create_xor_link` to explicit input. -/
theorem outreach_create_xor_link_witness :
    Outreach.create 10 1 2 "email" "Hello, I would like to connect." none none
        none none "Sent" [] =
      Except.error "Must provide exactly ONE of application_id or company_id" :=
  (outreach_create_xor_link 10 1 2 "email" "Hello, I would like to connect."
      none none none none "Sent" []).1 (Or.inr ⟨rfl, rfl⟩)

/-!
Section: CVAnalysis (`backend/models/cv_analysis.py`)
-/

/-- Model of `CVAnalysis.get_score_category` (cv_analysis.py lines 182-196), as a
function of the stored `ats_score`. -/
def CVAnalysis.get_score_category (ats_score : Int) : String :=
  if 80 ≤ ats_score then "Excellent"
  else if 60 ≤ ats_score then "Good"
  else if 40 ≤ ats_score then "Fair"
  else "Poor"

/-- Claim C5: the score-category buckets are `[80, ∞) → Excellent`,
`[60, 79] → Good`, `[40, 59] → Fair`, `(-∞, 39] → Poor`, with the exact
boundary values 80, 79, 60, 59, 40, 39 mapping as the spec lists them. -/
theorem cv_analysis_score_category_buckets (s : Int) :
    (80 ≤ s → CVAnalysis.get_score_category s = "Excellent") ∧
    (60 ≤ s → s ≤ 79 → CVAnalysis.get_score_category s = "Good") ∧
    (40 ≤ s → s ≤ 59 → CVAnalysis.get_score_category s = "Fair") ∧
    (s ≤ 39 → CVAnalysis.get_score_category s = "Poor") ∧
    CVAnalysis.get_score_category 80 = "Excellent" ∧
    CVAnalysis.get_score_category 79 = "Good" ∧
    CVAnalysis.get_score_category 60 = "Good" ∧
    CVAnalysis.get_score_category 59 = "Fair" ∧
    CVAnalysis.get_score_category 40 = "Fair" ∧
    CVAnalysis.get_score_category 39 = "Poor" := by
  refine ⟨?_, ?_, ?_, ?_, rfl, rfl, rfl, rfl, rfl, rfl⟩ <;>
    intro h <;> simp only [CVAnalysis.get_score_category] <;>
    split_ifs <;> first | rfl | omega | (intro h2; omega) | (intro h2; rfl)

/-- Witness for C5: the boundary score 79 is categorised `Good`, by
applying `cv_analysis_score_category_buckets` to explicit input. -/
theorem cv_analysis_score_category_buckets_witness :
    CVAnalysis.get_score_category 79 = "Good" :=
  (cv_analysis_score_category_buckets 79).2.1 (by decide) (by decide)

/-!
Section: Goal (`backend/models/goal.py`)

Rows of the `goals` table; `week_start` is a day number; day 0 of the
time line is a Monday, so `d % 7` is the Python weekday of day `d` and a
date is Monday-aligned exactly when `d % 7 = 0`.
-/

structure GoalRow where
  user_id : Int
  week_start : Nat
  applications_goal : Int
  applications_current : Int
  outreach_goal : Int
  outreach_current : Int
deriving DecidableEq, Repr

/-- Model of `Goal.validate_goal_value` (goal.py lines 28-31). -/
def Goal.validate_goal_value (value : Int) : Bool :=
  decide (0 < value)

/-- Model of `Goal.get_week_start` (goal.py lines 33-45):
`target_date - timedelta(days=target_date.weekday())`. -/
def Goal.get_week_start (target_date : Nat) : Nat :=
  target_date - target_date % 7

/-- Default applied by `if not week_start: week_start = cls.get_week_start()` inside
`Goal.create` (goal.py lines 77-78). -/
def Goal.resolve_week (week_start : Option Nat) (today : Nat) : Nat :=
  match week_start with
  | none => Goal.get_week_start today
  | some w => w

/-- Model of `Goal.find_by_week` (goal.py lines 112-120): exact match on
`user_id` and `week_start`. -/
def Goal.find_by_week (user_id : Int) (week_start : Nat) (db : List GoalRow) :
    Option GoalRow :=
  db.find? (fun g => g.user_id == user_id && g.week_start == week_start)

/-- Model of `Goal.create` (goal.py lines 51-97): target validation, week-start
default, duplicate check by exact `week_start`, then the insert with both
current counters at 0. -/
def Goal.create (today : Nat) (user_id : Int)
    (applications_goal outreach_goal : Int) (week_start : Option Nat)
    (db : List GoalRow) : Except String (List GoalRow) :=
  if !Goal.validate_goal_value applications_goal then
    Except.error "Applications goal must be a positive integer"
  else if !Goal.validate_goal_value outreach_goal then
    Except.error "Outreach goal must be a positive integer"
  else
    let ws := Goal.resolve_week week_start today
    match Goal.find_by_week user_id ws db with
    | some _ => Except.error ("Goal already exists for week starting " ++ toString ws)
    | none =>
        Except.ok (db ++ [{ user_id := user_id, week_start := ws,
                            applications_goal := applications_goal,
                            applications_current := 0,
                            outreach_goal := outreach_goal,
                            outreach_current := 0 }])

/-- Counterexample to claim C6: with valid targets, a goal created with
the non-Monday `week_start` day 1 (a Tuesday) does not block a second
goal for the same user with `week_start` day 0, the Monday of the very
same week: the duplicate check compares exact dates, so two goals end up
in one (user, Monday-aligned week). -/
theorem goal_create_monday_week_counterexample :
    Goal.create 2 1 5 3 (some 1) [] =
      Except.ok [{ user_id := 1, week_start := 1, applications_goal := 5,
                   applications_current := 0, outreach_goal := 3,
                   outreach_current := 0 }] ∧
    Goal.create 2 1 5 3 (some 0)
        [{ user_id := 1, week_start := 1, applications_goal := 5,
           applications_current := 0, outreach_goal := 3,
           outreach_current := 0 }] =
      Except.ok [{ user_id := 1, week_start := 1, applications_goal := 5,
                   applications_current := 0, outreach_goal := 3,
                   outreach_current := 0 },
                 { user_id := 1, week_start := 0, applications_goal := 5,
                   applications_current := 0, outreach_goal := 3,
                   outreach_current := 0 }] ∧
    Goal.get_week_start 1 = Goal.get_week_start 0 :=
  ⟨rfl, rfl, rfl⟩

/-- Claim C6 as amended: with valid targets, `Goal.create` raises (and
inserts nothing) exactly when a goal already exists for that user with
the exact same `week_start` date; otherwise it inserts one goal row for
that date. When `week_start` is not supplied it defaults to the
Monday-aligned start of the current week. Uniqueness therefore holds per
(user, exact `week_start` date), not per (user, Monday-aligned week). -/
theorem goal_create_unique_exact_week (today : Nat) (user_id : Int)
    (applications_goal outreach_goal : Int) (week_start : Option Nat)
    (db : List GoalRow)
    (ha : Goal.validate_goal_value applications_goal = true)
    (ho : Goal.validate_goal_value outreach_goal = true) :
    ((Goal.find_by_week user_id (Goal.resolve_week week_start today) db).isSome = true →
      Goal.create today user_id applications_goal outreach_goal week_start db =
        Except.error ("Goal already exists for week starting "
          ++ toString (Goal.resolve_week week_start today))) ∧
    (Goal.find_by_week user_id (Goal.resolve_week week_start today) db = none →
      Goal.create today user_id applications_goal outreach_goal week_start db =
        Except.ok (db ++ [{ user_id := user_id,
                            week_start := Goal.resolve_week week_start today,
                            applications_goal := applications_goal,
                            applications_current := 0,
                            outreach_goal := outreach_goal,
                            outreach_current := 0 }])) ∧
    (week_start = none →
      Goal.resolve_week week_start today = Goal.get_week_start today ∧
      Goal.resolve_week week_start today % 7 = 0) := by
  refine ⟨?_, ?_, ?_⟩
  · intro h
    cases hf : Goal.find_by_week user_id (Goal.resolve_week week_start today) db with
    | none => rw [hf] at h; simp at h
    | some g => simp [Goal.create, ha, ho, hf]
  · intro h
    simp [Goal.create, ha, ho, h]
  · intro h
    subst h
    refine ⟨rfl, ?_⟩
    simp only [Goal.resolve_week, Goal.get_week_start]
    omega

/-- Witness for the amended C6: creating a goal for user 1 in an empty
table succeeds and inserts exactly one Monday-aligned row, by applying
`goal_create_unique_exact_week` to explicit input. -/
theorem goal_create_unique_exact_week_witness :
    Goal.create 9 1 5 3 none [] =
      Except.ok [{ user_id := 1, week_start := 7, applications_goal := 5,
                   applications_current := 0, outreach_goal := 3,
                   outreach_current := 0 }] :=
  (goal_create_unique_exact_week 9 1 5 3 none [] rfl rfl).2.1 rfl

/-- Model of `Goal.applications_progress_percentage` (goal.py lines 287-291);
Python float arithmetic on these integer inputs is exact, modelled in `ℚ`. -/
def Goal.applications_progress_percentage (g : GoalRow) : ℚ :=
  if g.applications_goal = 0 then 0
  else min ((g.applications_current : ℚ) / (g.applications_goal : ℚ) * 100) 100

/-- Model of `Goal.outreach_progress_percentage` (goal.py lines 293-297). -/
def Goal.outreach_progress_percentage (g : GoalRow) : ℚ :=
  if g.outreach_goal = 0 then 0
  else min ((g.outreach_current : ℚ) / (g.outreach_goal : ℚ) * 100) 100

/-- Claim C10: both progress percentages are total: a zero target yields 0
(no division by zero), a non-zero target yields
`min ((current / target) * 100) 100`, and for non-negative counts the
result lies in `[0, 100]`. -/
theorem goal_progress_percentage_total (g : GoalRow) :
    (g.applications_goal = 0 → Goal.applications_progress_percentage g = 0) ∧
    (g.applications_goal ≠ 0 → Goal.applications_progress_percentage g =
      min ((g.applications_current : ℚ) / (g.applications_goal : ℚ) * 100) 100) ∧
    (0 ≤ g.applications_current → 0 ≤ g.applications_goal →
      0 ≤ Goal.applications_progress_percentage g ∧
      Goal.applications_progress_percentage g ≤ 100) ∧
    (g.outreach_goal = 0 → Goal.outreach_progress_percentage g = 0) ∧
    (g.outreach_goal ≠ 0 → Goal.outreach_progress_percentage g =
      min ((g.outreach_current : ℚ) / (g.outreach_goal : ℚ) * 100) 100) ∧
    (0 ≤ g.outreach_current → 0 ≤ g.outreach_goal →
      0 ≤ Goal.outreach_progress_percentage g ∧
      Goal.outreach_progress_percentage g ≤ 100) := by
  refine ⟨fun h => by simp [Goal.applications_progress_percentage, h],
          fun h => by simp [Goal.applications_progress_percentage, h],
          fun hc hg => ?_,
          fun h => by simp [Goal.outreach_progress_percentage, h],
          fun h => by simp [Goal.outreach_progress_percentage, h],
          fun hc hg => ?_⟩
  · unfold Goal.applications_progress_percentage
    split
    · norm_num
    · constructor
      · refine le_min ?_ (by norm_num)
        have h1 : (0 : ℚ) ≤ (g.applications_current : ℚ) := by exact_mod_cast hc
        have h2 : (0 : ℚ) ≤ (g.applications_goal : ℚ) := by exact_mod_cast hg
        positivity
      · exact min_le_right _ _
  · unfold Goal.outreach_progress_percentage
    split
    · norm_num
    · constructor
      · refine le_min ?_ (by norm_num)
        have h1 : (0 : ℚ) ≤ (g.outreach_current : ℚ) := by exact_mod_cast hc
        have h2 : (0 : ℚ) ≤ (g.outreach_goal : ℚ) := by exact_mod_cast hg
        positivity
      · exact min_le_right _ _

/-- Witness for C10: a goal with progress 7 of target 5 is capped at 100
and bounded in `[0, 100]`, by applying `goal_progress_percentage_total`
to explicit input. -/
theorem goal_progress_percentage_total_witness :
    0 ≤ Goal.applications_progress_percentage
          { user_id := 1, week_start := 0, applications_goal := 5,
            applications_current := 7, outreach_goal := 3,
            outreach_current := 1 } ∧
    Goal.applications_progress_percentage
          { user_id := 1, week_start := 0, applications_goal := 5,
            applications_current := 7, outreach_goal := 3,
            outreach_current := 1 } ≤ 100 :=
  (goal_progress_percentage_total
      { user_id := 1, week_start := 0, applications_goal := 5,
        applications_current := 7, outreach_goal := 3,
        outreach_current := 1 }).2.2.1 (by norm_num) (by norm_num)

/-!
Section: User (`backend/models/user.py`)

Rows of the `users` table. The password hash (`hashlib.sha256`) is an
external library function; the claims below do not depend on it, so the
model is parameterised by an arbitrary `hash : String → String`.
`last_login` timestamps are modelled as `Nat` ticks. New row ids model
the AUTOINCREMENT primary key as one past the current table length.
-/

structure UserRow where
  id : Int
  email : String
  password_hash : String
  name : String
  is_active : Bool
  last_login : Option Nat
deriving DecidableEq, Repr

/-- Class `[A-Za-z]` of the email regex. -/
def isAsciiAlpha (c : Char) : Bool :=
  (65 ≤ c.toNat && c.toNat ≤ 90) || (97 ≤ c.toNat && c.toNat ≤ 122)

/-- Class `[0-9]` of the validation regexes. -/
def isAsciiDigit (c : Char) : Bool :=
  48 ≤ c.toNat && c.toNat ≤ 57

/-- Class `[a-zA-Z0-9._%+-]`, the local part of the email regex. -/
def isLocalChar (c : Char) : Bool :=
  isAsciiAlpha c || isAsciiDigit c || c == '.' || c == '_' || c == '%' ||
    c == '+' || c == '-'

/-- Class `[a-zA-Z0-9.-]`, the domain part of the email regex. -/
def isDomainChar (c : Char) : Bool :=
  isAsciiAlpha c || isAsciiDigit c || c == '.' || c == '-'

/-- Split a character list at the first occurrence of `ch`, returning the
parts before and after it. -/
def splitFirstAt (ch : Char) : List Char → Option (List Char × List Char)
  | [] => none
  | c :: cs =>
      if c == ch then some ([], cs)
      else
        match splitFirstAt ch cs with
        | none => none
        | some (l, r) => some (c :: l, r)

/-- Split a character list at the last occurrence of `ch`. -/
def splitLastAt (ch : Char) (cs : List Char) : Option (List Char × List Char) :=
  match splitFirstAt ch cs.reverse with
  | none => none
  | some (a, b) => some (b.reverse, a.reverse)

/-- Model of `User.validate_email` (user.py lines 30-36): decides the regex
`^[a-zA-Z0-9._%+-]+@[a-zA-Z0-9.-]+\.[a-zA-Z]\x7b2,\x7d$` with the final
anchor read as end of string. A backtracking match of this pattern exists
exactly when the text splits at its first `@` and the tail splits at its
last `.` into a nonempty domain part and an all-letter tail of length at
least 2. -/
def User.validate_email (email : String) : Bool :=
  match splitFirstAt '@' email.toList with
  | none => false
  | some (lp, rest) =>
      !lp.isEmpty && lp.all isLocalChar &&
      (match splitLastAt '.' rest with
       | none => false
       | some (dp, tp) =>
           !dp.isEmpty && dp.all isDomainChar &&
           decide (2 ≤ tp.length) && tp.all isAsciiAlpha)

/-- The special-character class of `User.validate_password`
(user.py line 59). -/
def specialChars : List Char :=
  "!@#$%^&*(),.?\":\x7b\x7d|<>".toList

/-- Search for a character in `[A-Z]` (user.py line 50). -/
def hasUpperChar (s : String) : Bool :=
  s.toList.any (fun c => 65 ≤ c.toNat && c.toNat ≤ 90)

/-- Search for a character in `[a-z]` (user.py line 53). -/
def hasLowerChar (s : String) : Bool :=
  s.toList.any (fun c => 97 ≤ c.toNat && c.toNat ≤ 122)

/-- Search for a character in `[0-9]` (user.py line 56). -/
def hasDigitChar (s : String) : Bool :=
  s.toList.any isAsciiDigit

/-- Search for a character of the special-character class (user.py line 59). -/
def hasSpecialChar (s : String) : Bool :=
  s.toList.any (fun c => specialChars.contains c)

/-- Model of `User.validate_password` (user.py lines 38-62): the checks in source
order, returning `(is_valid, error_message)`. -/
def User.validate_password (password : String) : Bool × String :=
  if password.isEmpty then (false, "Password is required")
  else if password.length < 8 then
    (false, "Password must be at least 8 characters long")
  else if !hasUpperChar password then
    (false, "Password must contain at least one uppercase letter")
  else if !hasLowerChar password then
    (false, "Password must contain at least one lowercase letter")
  else if !hasDigitChar password then
    (false, "Password must contain at least one number")
  else if !hasSpecialChar password then
    (false, "Password must contain at least one special character")
  else (true, "")

/-- Model of `User.find_by_email` (user.py lines 141-148): the parameter is
stripped and compared `COLLATE NOCASE`, modelled by ASCII lower-casing
both sides. -/
def User.find_by_email (email : String) (db : List UserRow) : Option UserRow :=
  db.find? (fun u => lowerStr u.email == lowerStr (pyStrip email))

/-- Model of `User.create` (user.py lines 78-126): email format, password and name
validation, the case-insensitive duplicate check, then the insert of the
lower-cased, stripped email. -/
def User.create (hash : String → String) (email password name : String)
    (db : List UserRow) : Except String (List UserRow) :=
  if !User.validate_email email then
    Except.error "Invalid email format"
  else if !(User.validate_password password).1 then
    Except.error (User.validate_password password).2
  else if name.isEmpty || (pyStrip name).length < 2 then
    Except.error "Name must be at least 2 characters long"
  else
    match User.find_by_email email db with
    | some _ => Except.error "Email already registered"
    | none =>
        Except.ok (db ++ [{ id := (db.length : Int) + 1,
                            email := lowerStr (pyStrip email),
                            password_hash := hash password,
                            name := pyStrip name,
                            is_active := true,
                            last_login := none }])

/-- Model of `User.verify_password` (user.py lines 69-72). -/
def User.verify_password (hash : String → String)
    (password password_hash : String) : Bool :=
  hash password == password_hash

/-- The `UPDATE users SET last_login = ? WHERE id = ?` statement inside
`User.authenticate` (user.py lines 188-190). -/
def User.update_last_login (id : Int) (now : Nat) (db : List UserRow) :
    List UserRow :=
  db.map (fun u => if u.id == id then { u with last_login := some now } else u)

/-- Model of `User.authenticate` (user.py lines 160-194): lookup, active check,
password check, and only then the last-login write; on success it returns
the updated table and the returned user object. The error paths raise
before the `UPDATE` statement, so they return no table. -/
def User.authenticate (hash : String → String) (now : Nat)
    (email password : String) (db : List UserRow) :
    Except String (List UserRow × UserRow) :=
  match User.find_by_email email db with
  | none => Except.error "Invalid email or password"
  | some u =>
      if !u.is_active then Except.error "Account is inactive"
      else if !User.verify_password hash password u.password_hash then
        Except.error "Invalid email or password"
      else
        Except.ok (User.update_last_login u.id now db,
                   { u with last_login := some now })

/-- Splitting with `splitFirstAt` decomposes the input around the split character. -/
theorem splitFirstAt_append (ch : Char) (cs : List Char) :
    ∀ a b, splitFirstAt ch cs = some (a, b) → cs = a ++ ch :: b := by
  induction cs with
  | nil => intro a b h; simp [splitFirstAt] at h
  | cons c cs ih =>
      intro a b h
      by_cases hc : (c == ch) = true
      · rw [beq_iff_eq.mp hc]
        simp only [splitFirstAt, hc, if_true] at h
        obtain ⟨ha, hb⟩ := Prod.mk.injEq .. ▸ (Option.some.injEq .. ▸ h)
        rw [← ha, ← hb]
        rfl
      · rw [Bool.not_eq_true] at hc
        simp only [splitFirstAt, hc, Bool.false_eq_true, if_false] at h
        cases hr : splitFirstAt ch cs with
        | none => rw [hr] at h; simp at h
        | some lr =>
            obtain ⟨l, r⟩ := lr
            rw [hr] at h
            simp only [Option.some.injEq, Prod.mk.injEq] at h
            obtain ⟨ha, hb⟩ := h
            rw [← ha, ← hb]
            have := ih l r hr
            simp [this]

/-- Splitting with `splitLastAt` decomposes the input around the split character. -/
theorem splitLastAt_append (ch : Char) (cs : List Char) (d t : List Char)
    (h : splitLastAt ch cs = some (d, t)) : cs = d ++ ch :: t := by
  unfold splitLastAt at h
  cases hr : splitFirstAt ch cs.reverse with
  | none => rw [hr] at h; simp at h
  | some ab =>
      obtain ⟨a, b⟩ := ab
      rw [hr] at h
      simp only [Option.some.injEq, Prod.mk.injEq] at h
      obtain ⟨hd, ht⟩ := h
      have hdec := splitFirstAt_append ch cs.reverse a b hr
      have : cs = (a ++ ch :: b).reverse := by
        rw [← hdec, List.reverse_reverse]
      rw [this, ← hd, ← ht]
      simp

/-- A character of the email local-part class is not ASCII whitespace. -/
theorem isPySpace_false_of_localChar (c : Char) (h : isLocalChar c = true) :
    isPySpace c = false := by
  cases hsp : isPySpace c with
  | false => rfl
  | true =>
      exfalso
      simp only [isPySpace, Bool.or_eq_true, beq_iff_eq] at hsp
      rcases hsp with ((((rfl | rfl) | rfl) | rfl) | rfl) | rfl <;>
        exact absurd h (by decide)

/-- A character of the email domain class is not ASCII whitespace. -/
theorem isPySpace_false_of_domainChar (c : Char) (h : isDomainChar c = true) :
    isPySpace c = false := by
  cases hsp : isPySpace c with
  | false => rfl
  | true =>
      exfalso
      simp only [isPySpace, Bool.or_eq_true, beq_iff_eq] at hsp
      rcases hsp with ((((rfl | rfl) | rfl) | rfl) | rfl) | rfl <;>
        exact absurd h (by decide)

/-- An ASCII letter is not ASCII whitespace. -/
theorem isPySpace_false_of_alpha (c : Char) (h : isAsciiAlpha c = true) :
    isPySpace c = false := by
  cases hsp : isPySpace c with
  | false => rfl
  | true =>
      exfalso
      simp only [isPySpace, Bool.or_eq_true, beq_iff_eq] at hsp
      rcases hsp with ((((rfl | rfl) | rfl) | rfl) | rfl) | rfl <;>
        exact absurd h (by decide)

/-- Dropping with an everywhere-false predicate is the identity. -/
theorem dropWhile_eq_self_of_all_false {p : Char → Bool} (cs : List Char)
    (h : ∀ c ∈ cs, p c = false) : cs.dropWhile p = cs := by
  cases cs with
  | nil => rfl
  | cons c cs => simp [List.dropWhile, h c (List.mem_cons_self c cs)]

/-- Stripping a string with no ASCII whitespace is the identity. -/
theorem pyStrip_eq_self_of_no_space (s : String)
    (h : ∀ c ∈ s.toList, isPySpace c = false) : pyStrip s = s := by
  unfold pyStrip stripChars
  rw [dropWhile_eq_self_of_all_false s.toList h]
  rw [dropWhile_eq_self_of_all_false s.toList.reverse
    (fun c hc => h c (List.mem_reverse.mp hc))]
  rw [List.reverse_reverse]
  cases s
  rfl

/-- A string accepted by `User.validate_email` contains no ASCII
whitespace: every character is in one of the regex character classes or
is the `@` or `.` separator. -/
theorem validate_email_no_space (email : String)
    (h : User.validate_email email = true) :
    ∀ c ∈ email.toList, isPySpace c = false := by
  unfold User.validate_email at h
  cases hat : splitFirstAt '@' email.toList with
  | none => rw [hat] at h; simp at h
  | some pr =>
      obtain ⟨lp, rest⟩ := pr
      rw [hat] at h
      simp only [Bool.and_eq_true] at h
      obtain ⟨⟨hlp1, hlp2⟩, hrest⟩ := h
      cases hdot : splitLastAt '.' rest with
      | none => rw [hdot] at hrest; simp at hrest
      | some dt =>
          obtain ⟨dp, tp⟩ := dt
          rw [hdot] at hrest
          simp only [Bool.and_eq_true] at hrest
          obtain ⟨⟨⟨hdp1, hdp2⟩, htp1⟩, htp2⟩ := hrest
          have hemail := splitFirstAt_append '@' email.toList lp rest hat
          have hrest2 := splitLastAt_append '.' rest dp tp hdot
          intro c hc
          rw [hemail] at hc
          rcases List.mem_append.mp hc with hcl | hcr
          · exact isPySpace_false_of_localChar c
              (List.all_eq_true.mp hlp2 c hcl)
          · rcases List.mem_cons.mp hcr with rfl | hcr2
            · rfl
            · rw [hrest2] at hcr2
              rcases List.mem_append.mp hcr2 with hcd | hct
              · exact isPySpace_false_of_domainChar c
                  (List.all_eq_true.mp hdp2 c hcd)
              · rcases List.mem_cons.mp hct with rfl | hct2
                · rfl
                · exact isPySpace_false_of_alpha c
                    (List.all_eq_true.mp htp2 c hct2)

/-- Claim C7: `User.validate_password` accepts exactly when all five
strength rules hold (length ≥ 8, an uppercase letter, a lowercase letter,
a digit, a special character); on failure the returned message names a
rule that is indeed violated (the empty password gets the
`Password is required` message, and violates the length rule); and
`User.create` raises exactly that message (for any email passing format
validation, which is checked first). -/
theorem user_validate_password_rules (password : String) :
    ((User.validate_password password).1 = true ↔
      (8 ≤ password.length ∧ hasUpperChar password = true ∧
       hasLowerChar password = true ∧ hasDigitChar password = true ∧
       hasSpecialChar password = true)) ∧
    ((User.validate_password password).1 = false →
      ((User.validate_password password).2 = "Password is required" ∧
        password.length < 8) ∨
      ((User.validate_password password).2 =
          "Password must be at least 8 characters long" ∧
        password.length < 8) ∨
      ((User.validate_password password).2 =
          "Password must contain at least one uppercase letter" ∧
        hasUpperChar password = false) ∨
      ((User.validate_password password).2 =
          "Password must contain at least one lowercase letter" ∧
        hasLowerChar password = false) ∨
      ((User.validate_password password).2 =
          "Password must contain at least one number" ∧
        hasDigitChar password = false) ∨
      ((User.validate_password password).2 =
          "Password must contain at least one special character" ∧
        hasSpecialChar password = false)) ∧
    (∀ (hash : String → String) (email name : String) (db : List UserRow),
      User.validate_email email = true →
      (User.validate_password password).1 = false →
      User.create hash email password name db =
        Except.error (User.validate_password password).2) := by
  refine ⟨?_, ?_, ?_⟩
  · unfold User.validate_password
    split_ifs with h1 h2 h3 h4 h5 h6
    · refine iff_of_false (by simp) (fun hr => ?_)
      have h0 := hr.1
      rw [(String.isEmpty_iff password).mp h1] at h0
      simp at h0
    · exact iff_of_false (by simp) (fun hr => absurd hr.1 (by omega))
    · exact iff_of_false (by simp) (fun hr => by simp [hr.2.1] at h3)
    · exact iff_of_false (by simp) (fun hr => by simp [hr.2.2.1] at h4)
    · exact iff_of_false (by simp) (fun hr => by simp [hr.2.2.2.1] at h5)
    · exact iff_of_false (by simp) (fun hr => by simp [hr.2.2.2.2] at h6)
    · exact iff_of_true rfl ⟨by omega, by simpa using h3, by simpa using h4,
        by simpa using h5, by simpa using h6⟩
  · unfold User.validate_password
    split_ifs with h1 h2 h3 h4 h5 h6
    · intro _
      left
      refine ⟨rfl, ?_⟩
      rw [(String.isEmpty_iff password).mp h1]
      simp
    · exact fun _ => Or.inr (Or.inl ⟨rfl, h2⟩)
    · exact fun _ => Or.inr (Or.inr (Or.inl ⟨rfl, by simpa using h3⟩))
    · exact fun _ => Or.inr (Or.inr (Or.inr (Or.inl ⟨rfl, by simpa using h4⟩)))
    · exact fun _ =>
        Or.inr (Or.inr (Or.inr (Or.inr (Or.inl ⟨rfl, by simpa using h5⟩))))
    · exact fun _ =>
        Or.inr (Or.inr (Or.inr (Or.inr (Or.inr ⟨rfl, by simpa using h6⟩))))
    · intro h; simp at h
  · intro hash email name db he hp
    simp [User.create, he, hp]

/-- Witness for C7: the all-lowercase password `abcdefgh` makes
`User.create` raise the uppercase-rule message, by applying
`user_validate_password_rules` to explicit input. -/
theorem user_validate_password_rules_witness :
    User.create (fun s => s) "alice@mail.com" "abcdefgh" "Alice" [] =
      Except.error "Password must contain at least one uppercase letter" :=
  (user_validate_password_rules "abcdefgh").2.2
    (fun s => s) "alice@mail.com" "Alice" [] rfl rfl

/-- Claim C8: `User.create` with an email equal, up to ASCII letter case,
to the email of a user already in the table always returns a validation
error (and, returning no table, inserts nothing): either one of the
format/password/name validations fires first, or the case-insensitive
duplicate lookup finds the stored user. -/
theorem user_create_duplicate_email_rejected (hash : String → String)
    (email password name : String) (db : List UserRow) (u : UserRow)
    (hu : u ∈ db) (hci : lowerStr u.email = lowerStr email) :
    ∃ msg, User.create hash email password name db = Except.error msg := by
  cases he : User.validate_email email with
  | false => exact ⟨"Invalid email format", by simp [User.create, he]⟩
  | true =>
      cases hp : (User.validate_password password).1 with
      | false =>
          exact ⟨(User.validate_password password).2,
            by simp [User.create, he, hp]⟩
      | true =>
          cases hn : name.isEmpty || decide ((pyStrip name).length < 2) with
          | true =>
              refine ⟨"Name must be at least 2 characters long", ?_⟩
              unfold User.create
              rw [he, hp, hn]
              simp
          | false =>
              have hstrip : pyStrip email = email :=
                pyStrip_eq_self_of_no_space email (validate_email_no_space email he)
              have hsome : (db.find?
                  (fun v => lowerStr v.email == lowerStr (pyStrip email))).isSome := by
                refine List.find?_isSome.mpr ⟨u, hu, ?_⟩
                rw [hstrip, hci]
                exact beq_self_eq_true _
              obtain ⟨v, hv⟩ := Option.isSome_iff_exists.mp hsome
              have hfind : User.find_by_email email db = some v := hv
              exact ⟨"Email already registered",
                by simp [User.create, he, hp, hfind]; simp_all⟩

/-- Witness for C8: creating `Alice@Mail.com` when `alice@mail.com` is
stored is rejected, by applying `user_create_duplicate_email_rejected`
to explicit input. -/
theorem user_create_duplicate_email_rejected_witness :
    ∃ msg, User.create (fun s => s) "Alice@Mail.com" "Str0ng!pw" "Alice"
        [{ id := 1, email := "alice@mail.com", password_hash := "h",
           name := "Alice", is_active := true, last_login := none }] =
      Except.error msg :=
  user_create_duplicate_email_rejected (fun s => s) "Alice@Mail.com"
    "Str0ng!pw" "Alice" _
    { id := 1, email := "alice@mail.com", password_hash := "h",
      name := "Alice", is_active := true, last_login := none }
    (List.mem_cons_self _ _) rfl

/-- Claim C9: `User.authenticate` raises `Account is inactive` for every
stored user whose `is_active` flag is false, regardless of the supplied
password; and it succeeds (returning the table with `last_login`
updated) only when the user exists, is active and the password verifies —
every error path raises before the last-login `UPDATE` runs. -/
theorem user_authenticate_inactive_guard (hash : String → String) (now : Nat)
    (email password : String) (db : List UserRow) :
    (∀ u, User.find_by_email email db = some u → u.is_active = false →
      User.authenticate hash now email password db =
        Except.error "Account is inactive") ∧
    (∀ db2 u2,
      User.authenticate hash now email password db = Except.ok (db2, u2) →
      ∃ u, User.find_by_email email db = some u ∧ u.is_active = true ∧
        User.verify_password hash password u.password_hash = true ∧
        db2 = User.update_last_login u.id now db ∧
        u2 = { u with last_login := some now }) := by
  constructor
  · intro u hf hin
    simp [User.authenticate, hf, hin]
  · intro db2 u2 h
    cases hf : User.find_by_email email db with
    | none => simp [User.authenticate, hf] at h
    | some u =>
        cases hact : u.is_active with
        | false => simp [User.authenticate, hf, hact] at h
        | true =>
            cases hver : User.verify_password hash password u.password_hash with
            | false => simp [User.authenticate, hf, hact, hver] at h
            | true =>
                simp only [User.authenticate, hf, hact, hver, Bool.not_true,
                  Bool.false_eq_true, if_false, Except.ok.injEq,
                  Prod.mk.injEq] at h
                exact ⟨u, rfl, hact, hver, h.1.symm, by rw [hact]; exact h.2.symm⟩

/-- Witness for C9: an inactive stored user is refused, by applying
`user_authenticate_inactive_guard` to explicit input. -/
theorem user_authenticate_inactive_guard_witness :
    User.authenticate (fun s => s) 0 "bob@mail.com" "pw"
        [{ id := 1, email := "bob@mail.com", password_hash := "pw",
           name := "Bob", is_active := false, last_login := none }] =
      Except.error "Account is inactive" :=
  (user_authenticate_inactive_guard (fun s => s) 0 "bob@mail.com" "pw"
      [{ id := 1, email := "bob@mail.com", password_hash := "pw",
         name := "Bob", is_active := false, last_login := none }]).1
    { id := 1, email := "bob@mail.com", password_hash := "pw",
      name := "Bob", is_active := false, last_login := none }
    rfl rfl
